import Mathlib

/-!
# Verification of the Node transport adapter and static/middleware dispatcher

Shallow embedding of the request adapter (`NodeApp.createRequest` and its
helpers, `src/unnamed/part_000`), the cancellation (abort) bridge wired onto
the transport socket (`src/unnamed/part_000`, lines 285–323 and 465–469), and
the static dispatcher (`createStaticHandler`, `src/unnamed/part_001`), together
with the middleware helpers (`NodeApp.executeMiddlewareOnly`,
`src/unnamed/part_000` lines 157–199, and `isPrerenderedHTMLPage`,
`src/unnamed/part_001` lines 183–196).

JavaScript `undefined` is modelled by `Option.none`; JS nullish coalescing
(`??`) by `Option.getD`/`Option.orElse`; JS string truthiness (`if (s)`) by an
explicit emptiness test.
-/

namespace Spec2Proof

/-! ## JS string primitives

Structurally recursive embeddings of the JavaScript string operations the
source uses (`split`, `trim`, `startsWith`, `endsWith`, `toLowerCase`,
`slice(0,-1)`, `includes`), defined on character lists so that every
definition evaluates by kernel reduction. -/

/-- Is `sub` a prefix of the second list? -/
def isPrefixChars : List Char → List Char → Bool
  | [], _ => true
  | _ :: _, [] => false
  | a :: as, b :: bs => a = b && isPrefixChars as bs

/-- Does `sub` occur as a contiguous sublist?  (JS
`String.prototype.includes`.) -/
def containsChars (sub : List Char) : List Char → Bool
  | [] => sub.isEmpty
  | l@(_ :: rest) => isPrefixChars sub l || containsChars sub rest

/-- JS string whitespace (the ASCII part: space, tab, LF, VT, FF, CR — the
only code points arising in the header values in scope). -/
def jsWhitespace (c : Char) : Bool :=
  c = ' ' || c = '\t' || c = '\n' || c = Char.ofNat 11 || c = Char.ofNat 12 ||
    c = '\r'

/-- `String.prototype.trim`. -/
def jsTrim (s : String) : String :=
  String.mk ((s.data.dropWhile jsWhitespace).reverse.dropWhile jsWhitespace).reverse

/-- `String.prototype.split` with a single-character separator on character
lists; the result is never empty (splitting the empty string yields `[[]]`,
as in JS). -/
def jsSplitChars (sep : Char) : List Char → List (List Char)
  | [] => [[]]
  | c :: cs =>
    if c = sep then [] :: jsSplitChars sep cs
    else
      match jsSplitChars sep cs with
      | [] => [[c]]
      | h :: t => (c :: h) :: t

/-- `String.prototype.split` with a single-character separator. -/
def jsSplit (sep : Char) (s : String) : List String :=
  (jsSplitChars sep s.data).map String.mk

/-- `String.prototype.startsWith`. -/
def strStartsWith (s pre : String) : Bool :=
  isPrefixChars pre.data s.data

/-- `String.prototype.endsWith`. -/
def strEndsWith (s suf : String) : Bool :=
  isPrefixChars suf.data.reverse s.data.reverse

/-- `String.prototype.toLowerCase` (ASCII; the regex flag `/i` performs
ASCII-only folding for the ASCII patterns in scope). -/
def strToLower (s : String) : String :=
  String.mk (s.data.map Char.toLower)

/-- `String.prototype.slice(0, -1)`: drop the last code unit. -/
def strDropLast (s : String) : String :=
  String.mk s.data.dropLast

/-! ## Request adapter (`NodeApp.createRequest`, src/unnamed/part_000) -/

/-- The explicit body override a transport request may carry (`req.body`,
set e.g. by the Express JSON middleware).  The constructors track exactly the
distinctions `makeRequestBody` probes: the JS `typeof`/null tag, a string's
content, an object's own enumerable keys (`Object.keys`) and whether it has a
`Symbol.asyncIterator` method. -/
inductive BodyOverride where
  /-- `req.body === undefined` (no override supplied). -/
  | jsUndefined
  /-- `req.body === null`. -/
  | jsNull
  /-- a string override with the given content. -/
  | jsString (s : String)
  /-- a non-null object override: its own enumerable keys, and whether it
      exposes a `Symbol.asyncIterator` method. -/
  | jsObject (ownKeys : List String) (hasAsyncIterator : Bool)
  /-- any other value (number, boolean, ...): neither a string nor an object. -/
  | jsOtherPrimitive
  deriving Repr, DecidableEq

/-- A transport request (`NodeRequest extends IncomingMessage`): the fields
`createRequest` reads.  Header values are modelled as they reach the code
after Node's header folding (single strings; `getFirstForwardedValue` calls
`toString()` first, so the `string[]` case collapses to its comma-join). -/
structure NodeRequestModel where
  /-- `req.method` (`none` = absent). -/
  method : Option String
  /-- `req.url` — the raw request target (path plus query). -/
  url : String
  /-- `req.headers.host`. -/
  host : Option String
  /-- `req.headers[':authority']` (HTTP/2 pseudo-header). -/
  authority : Option String
  /-- `req.headers['x-forwarded-proto']`. -/
  xForwardedProto : Option String
  /-- `req.headers['x-forwarded-host']`. -/
  xForwardedHost : Option String
  /-- `req.headers['x-forwarded-port']`. -/
  xForwardedPort : Option String
  /-- `'encrypted' in req.socket && req.socket.encrypted`. -/
  socketEncrypted : Bool
  /-- the explicit body override `req.body`. -/
  body : BodyOverride
  deriving Repr, DecidableEq

/-- `getFirstForwardedValue` (src/unnamed/part_000 lines 226–231): parse a
multi-value header and return its first comma-separated value, trimmed.
`String.split(',')` always yields at least one element, so a present header
always yields a (possibly empty) value. -/
def getFirstForwardedValue : Option String → Option String
  | none => none
  | some s => ((jsSplit ',' s).map jsTrim).head?

/-- The protocol derived from the connection itself (line 238):
`isEncrypted ? 'https' : 'http'`. -/
def providedProtocol (req : NodeRequestModel) : String :=
  if req.socketEncrypted then "https" else "http"

/-- First value of `x-forwarded-proto` (line 237). -/
def forwardedProtocol (req : NodeRequestModel) : Option String :=
  getFirstForwardedValue req.xForwardedProto

/-- `const protocol = forwardedProtocol ?? providedProtocol` (line 239). -/
def resolvedProtocol (req : NodeRequestModel) : String :=
  (forwardedProtocol req).getD (providedProtocol req)

/-- `req.headers.host ?? req.headers[':authority']` (line 243). -/
def providedHostname (req : NodeRequestModel) : Option String :=
  req.host.orElse fun _ => req.authority

/-- First value of `x-forwarded-host` (line 242). -/
def forwardedHostnameRaw (req : NodeRequestModel) : Option String :=
  getFirstForwardedValue req.xForwardedHost

/-- Lines 246–256: the forwarded hostname is discarded (set to `undefined`)
when it is truthy (non-empty) and fails `App.validateForwardedHost`.
`App.validateForwardedHost` lives outside `src/`; it is abstracted here as a
predicate `validate` on the forwarded hostname (the allow-list and the
resolved protocol, which the source passes alongside, are absorbed into the
predicate).  Note the JS truthiness guard: an *empty* forwarded value is never
validated and survives. -/
def checkedForwardedHostname (req : NodeRequestModel) (validate : String → Bool) :
    Option String :=
  match forwardedHostnameRaw req with
  | none => none
  | some h => if h ≠ "" ∧ ¬ validate h then none else some h

/-- `const hostname = forwardedHostname ?? providedHostname` (line 258). -/
def resolvedHostname (req : NodeRequestModel) (validate : String → Bool) :
    Option String :=
  (checkedForwardedHostname req validate).orElse fun _ => providedHostname req

/-- First value of `x-forwarded-port` (line 261). -/
def forwardedPort (req : NodeRequestModel) : Option String :=
  getFirstForwardedValue req.xForwardedPort

/-- The regex test `/:\d+$/.test(hostname)` (line 406): the string ends with a
colon followed by one or more digits. -/
def endsWithColonDigits (h : String) : Bool :=
  let rev := h.data.reverse
  let digits := rev.takeWhile Char.isDigit
  decide (digits ≠ []) && decide ((rev.drop digits.length).head? = some ':')

/-- `getHostnamePort` (src/unnamed/part_000 lines 405–409).  A `none` hostname
interpolates as the literal string `"undefined"`, exactly as the template
literal does for `undefined`; a falsy (empty) port is not appended. -/
def getHostnamePort (hostname : Option String) (port : Option String) : String :=
  let portInHostname :=
    match hostname with
    | some h => endsWithColonDigits h
    | none => false
  let hstr := match hostname with
    | some h => h
    | none => "undefined"
  if portInHostname then hstr
  else
    hstr ++ (match port with
      | some p => if p ≠ "" then ":" ++ p else ""
      | none => "")

/-! ### Model of the WHATWG URL constructor

`new URL(input)` is platform code (not part of this repository).  It is
modelled here for the absolute-URL strings `createRequest` assembles: an
ASCII scheme, `//`, a reg-name authority `host[:port]`, and an opaque tail
that the model does not inspect (path/query parsing never fails in the real
parser).  Failure conditions modelled: empty/ill-formed scheme, missing `//`,
empty host, a forbidden host code point (the WHATWG forbidden-host set), a
non-numeric or out-of-range port.  Scheme and host are lowercased; a default
port (80 for http, 443 for https) is elided, as the real parser does.
Percent-encoding, IDNA, IPv6 literals, userinfo and non-special schemes are
outside the model's scope (none arise from the strings this code builds in
the developments below). -/

/-- The parsed record: scheme, host and optional port.  The path/query tail is
not modelled (it cannot cause a parse failure for the inputs in scope). -/
structure UrlModel where
  scheme : String
  host : String
  port : Option Nat
  deriving Repr, DecidableEq

/-- Split a character list at the first occurrence of `sep`; `none` when `sep`
does not occur. -/
def splitFirst (sep : Char) : List Char → Option (List Char × List Char)
  | [] => none
  | c :: cs =>
    if c = sep then some ([], cs)
    else
      match splitFirst sep cs with
      | some (a, b) => some (c :: a, b)
      | none => none

/-- A valid URL scheme: one ASCII letter followed by letters, digits, `+`,
`-` or `.`. -/
def schemeOk (s : List Char) : Bool :=
  match s with
  | [] => false
  | c :: cs =>
    (c.isAlpha && c.toNat < 128) &&
      cs.all fun d => (d.isAlphanum && d.toNat < 128) || d = '+' || d = '-' || d = '.'

/-- The WHATWG forbidden host code points. -/
def forbiddenHostChar (c : Char) : Bool :=
  c = Char.ofNat 0 || c = '\t' || c = '\n' || c = '\r' || c = ' ' || c = '#' ||
  c = '/' || c = ':' || c = '<' || c = '>' || c = '?' || c = '@' || c = '[' ||
  c = '\\' || c = ']' || c = '^' || c = '|'

/-- Port parsing: empty means no port (`"http://h:"` is valid with null port);
otherwise all decimal digits with value at most 65535. -/
def parsePort (s : List Char) : Option (Option Nat) :=
  if s.isEmpty then some none
  else if s.all Char.isDigit then
    let n := s.foldl (fun a c => a * 10 + (c.toNat - 48)) 0
    if n ≤ 65535 then some (some n) else none
  else none

/-- Default port of a (special) scheme, elided by the parser. -/
def defaultPort (scheme : String) : Option Nat :=
  if scheme = "http" then some 80
  else if scheme = "https" then some 443
  else none

/-- Validate a host/port pair: the host must be non-empty and free of
forbidden code points, the port (when present after a `:`) must parse. -/
def parseHostPort (scheme : String) (hostChars : List Char)
    (portPart : Option (List Char)) : Option UrlModel :=
  if (!hostChars.isEmpty) && hostChars.all (fun c => !forbiddenHostChar c) then
    match portPart with
    | none =>
      some { scheme := scheme, host := String.mk (hostChars.map Char.toLower),
             port := none }
    | some p =>
      match parsePort p with
      | none => none
      | some pn =>
        some { scheme := scheme, host := String.mk (hostChars.map Char.toLower),
               port := if pn = defaultPort scheme then none else pn }
  else none

/-- Parse everything after `scheme://`: the authority runs up to the first
`/`, `?`, `#` or `\`; an optional `:port` follows the host. -/
def parseAfterScheme (scheme : String) (rest2 : List Char) : Option UrlModel :=
  match splitFirst ':'
      (rest2.takeWhile fun c => !(c = '/' || c = '?' || c = '#' || c = '\\')) with
  | some (h, p) => parseHostPort scheme h (some p)
  | none =>
    parseHostPort scheme
      (rest2.takeWhile fun c => !(c = '/' || c = '?' || c = '#' || c = '\\')) none

/-- The URL-parser model: see the section comment for its scope. -/
def urlParse (s : String) : Option UrlModel :=
  match splitFirst ':' s.data with
  | none => none
  | some (schemeChars, rest) =>
    if schemeOk schemeChars then
      match rest with
      | '/' :: '/' :: rest2 =>
        parseAfterScheme (String.mk (schemeChars.map Char.toLower)) rest2
      | _ => none
    else none

/-- The URL string first assembled by `createRequest` (line 266):
`` `${protocol}://${hostnamePort}${req.url}` ``. -/
def primaryUrlString (req : NodeRequestModel) (validate : String → Bool) : String :=
  resolvedProtocol req ++ "://" ++
    getHostnamePort (resolvedHostname req validate) (forwardedPort req) ++ req.url

/-- The URL string assembled in the `catch` fallback (lines 269–270):
`` `${providedProtocol}://${hostnamePort}` `` with
`hostnamePort = getHostnamePort(providedHostname, port)` — note that `port` is
still the forwarded port, and that `req.url` is dropped. -/
def fallbackUrlString (req : NodeRequestModel) : String :=
  providedProtocol req ++ "://" ++
    getHostnamePort (providedHostname req) (forwardedPort req)

/-- The URL produced by `createRequest` (lines 263–271): try the primary
string; on parse failure try the fallback string.  A `none` result models the
case where the fallback `new URL` call itself throws, i.e. `createRequest`
throws. -/
def createRequestUrl (req : NodeRequestModel) (validate : String → Bool) :
    Option UrlModel :=
  match urlParse (primaryUrlString req validate) with
  | some u => some u
  | none => urlParse (fallbackUrlString req)

/-! ### Method and body (lines 273–281, 428–463) -/

/-- `req.method || 'GET'` (line 274): JS `||` substitutes the default for an
absent *or empty* method string. -/
def resolvedMethod (req : NodeRequestModel) : String :=
  match req.method with
  | none => "GET"
  | some m => if m = "" then "GET" else m

/-- The body value placed into the request init. -/
inductive BodySource where
  /-- `Buffer.from(req.body)` for a non-empty string override. -/
  | bufferOfString (s : String)
  /-- `Buffer.from(JSON.stringify(req.body))` for a non-empty object override
      (recorded by its key list). -/
  | bufferOfJson (ownKeys : List String)
  /-- the async-iterable override passed through as a streaming body. -/
  | overrideIterable
  /-- the transport request's own byte stream. -/
  | requestStream
  deriving Repr, DecidableEq

/-- The `RequestInit` fragment `makeRequestBody` returns: the body source and
the optional `duplex` transfer marker. -/
structure BodyProps where
  body : BodySource
  duplex : Option String
  deriving Repr, DecidableEq

/-- `asyncIterableToBodyProps` (lines 452–463): a streaming body always
carries the `duplex: 'half'` marker. -/
def asyncIterableToBodyProps (src : BodySource) : BodyProps :=
  { body := src, duplex := some "half" }

/-- `makeRequestBody` (lines 428–450), mirroring its probe order: a non-empty
string override; a non-null object override with own keys; an async-iterable
object override; otherwise the transport stream itself. -/
def makeRequestBody (req : NodeRequestModel) : BodyProps :=
  match req.body with
  | .jsString s =>
    if s.length > 0 then { body := .bufferOfString s, duplex := none }
    else asyncIterableToBodyProps .requestStream
  | .jsObject keys hasIter =>
    if keys.length > 0 then { body := .bufferOfJson keys, duplex := none }
    else if hasIter then asyncIterableToBodyProps .overrideIterable
    else asyncIterableToBodyProps .requestStream
  | _ => asyncIterableToBodyProps .requestStream

/-- `const bodyAllowed = options.method !== 'HEAD' && options.method !== 'GET'
&& skipBody === false` (line 278). -/
def bodyAllowed (req : NodeRequestModel) (skipBody : Bool) : Bool :=
  (resolvedMethod req != "HEAD") && (resolvedMethod req != "GET") && !skipBody

/-- The request-init fields of the normalized request (method and body;
lines 273–281). -/
structure RequestInitModel where
  method : String
  body : Option BodyProps
  deriving Repr, DecidableEq

/-- Assembly of the init options in `createRequest` (lines 273–281): the body
is attached only when `bodyAllowed`. -/
def createRequestInit (req : NodeRequestModel) (skipBody : Bool) : RequestInitModel :=
  { method := resolvedMethod req,
    body := if bodyAllowed req skipBody then some (makeRequestBody req) else none }

/-! ## Static dispatcher (`createStaticHandler`, src/unnamed/part_001) -/

/-- The trailing-slash mode (`options.trailingSlash`, default `'ignore'`). -/
inductive TrailingSlash where
  | never
  | ignore
  | always
  deriving Repr, DecidableEq

/-- The dispatcher options read by `createStaticHandler` (the `client`/`server`
roots only feed the filesystem abstraction below). -/
structure StaticOptions where
  runMiddlewareOnRequest : Bool
  trailingSlash : TrailingSlash
  assets : String
  deriving Repr, DecidableEq

/-- A response as the middleware layer sees it: status and header list
(headers may repeat, e.g. `set-cookie`). -/
structure ResponseModel where
  status : Nat
  headers : List (String × String)
  deriving Repr, DecidableEq

/-- An entry of `app.headersMap` (`{ pathname, headers }`). -/
structure HeaderRoute where
  pathname : String
  headers : List (String × String)
  deriving Repr, DecidableEq

/-- The behaviour of the configured middleware for one dispatch, as observed
by the dispatcher. -/
inductive MiddlewareSpec where
  /-- `manifest.middleware` is undefined, or the loaded module has no
      `onRequest` export (lines 35, 41). -/
  | absent
  /-- `await manifest.middleware()` throws while loading the module
      (inside the `try` of lines 30–59). -/
  | loadError
  /-- the middleware function itself throws when invoked. -/
  | invokeError
  /-- the middleware runs to completion, possibly returning a response,
      having possibly invoked the continuation `next`, and leaving
      `cookies` recorded on the context's cookie jar
      (`ctx.cookies.headers()`). -/
  | runs (response : Option ResponseModel) (calledNext : Bool) (cookies : List String)
  deriving Repr, DecidableEq

/-- Result of the middleware phase of the dispatcher. -/
inductive MwPhaseResult where
  /-- continue to static serving; `logged` records whether the `catch` of
      lines 55–59 logged a middleware error. -/
  | fallthrough (logged : Bool)
  /-- `executeMiddlewareForStatic` returned `true`: the middleware's response
      was written via `NodeApp.writeResponse` (line 239) — note: verbatim,
      without appending the context's cookies. -/
  | handled (r : ResponseModel)
  deriving Repr, DecidableEq

/-- `executeMiddlewareForStatic` (src/unnamed/part_001 lines 203–245) plus the
surrounding load/`try` logic of lines 29–60: absent middleware falls through
silently; a load or invocation error is caught and logged; a response returned
without `next()` having been called is written and handled; otherwise the
static file is served. -/
def middlewareStep (mw : MiddlewareSpec) : MwPhaseResult :=
  match mw with
  | .absent => .fallthrough false
  | .loadError => .fallthrough true
  | .invokeError => .fallthrough true
  | .runs response calledNext _cookies =>
    match response, calledNext with
    | some r, false => .handled r
    | _, _ => .fallthrough false

/-- `NodeApp.executeMiddlewareOnly` result (src/unnamed/part_000 line 162). -/
structure MwOnlyResult where
  handled : Bool
  response : Option ResponseModel
  deriving Repr, DecidableEq

/-- The cookie merge of src/unnamed/part_000 lines 181–183 and 191–194:
each value of `ctx.cookies.headers()` is appended as a `set-cookie` header. -/
def appendSetCookies (r : ResponseModel) (cookies : List String) : ResponseModel :=
  { r with headers := r.headers ++ cookies.map fun c => ("set-cookie", c) }

/-- `NodeApp.executeMiddlewareOnly` (src/unnamed/part_000 lines 157–199),
given the middleware's observable run (returned response, whether `next` was
invoked, cookies recorded on the context). -/
def executeMiddlewareOnly (response : Option ResponseModel) (calledNext : Bool)
    (cookies : List String) : MwOnlyResult :=
  match response, calledNext with
  | some r, false => { handled := true, response := some (appendSetCookies r cookies) }
  | some r, true => { handled := false, response := some (appendSetCookies r cookies) }
  | none, _ => { handled := false, response := none }

/-- The environment the dispatcher consults: the outcome of
`fs.lstatSync(filePath).isDirectory()` (`false` when the stat throws, lines
62–65), the header map and route-match outcome (lines 72–82), and the
helpers that live outside `src/` abstracted as functions —
`app.removeBase` (App code) and `hasFileExtension`/`isInternalPath`
(`@astrojs/internal-helpers/path`). -/
structure StaticEnv where
  isDirectory : Bool
  headersMap : List HeaderRoute
  matchedPrerender : Bool
  removeBase : String → String
  hasFileExt : String → Bool
  isInternalPath : String → Bool

/-- `const [urlPath, urlQuery] = req.url.split('?')` (line 25): the first
element of the split. -/
def urlPathOf (u : String) : String :=
  (jsSplit '?' u).headD ""

/-- The second destructured element: the second element of the split if any
(everything after a *second* `?` is dropped by the destructuring). -/
def urlQueryOf (u : String) : Option String :=
  (jsSplit '?' u)[1]?

/-- The known static-asset extension set of the classifier regex. -/
def assetExtensions : List String :=
  ["css", "js", "json", "xml", "txt", "ico", "png", "jpg", "jpeg", "gif",
   "svg", "woff", "woff2", "ttf", "eot", "webp", "avif", "map"]

/-- The case-insensitive extension test
`/\.(?:css|js|...|map)$/i.test(urlPath)`: the lowercased path ends with a dot
followed by one of the extensions. -/
def hasAssetExtension (urlPath : String) : Bool :=
  assetExtensions.any fun ext => strEndsWith (strToLower urlPath) ("." ++ ext)

/-- `isPrerenderedHTMLPage` (src/unnamed/part_001 lines 183–196, identical to
src/packages/integrations/node/src/serve-middleware.ts lines 39–52): asset
paths — assets-directory prefix or known extension — are not HTML pages. -/
def isPrerenderedHTMLPage (urlPath : String) : Bool :=
  if strStartsWith urlPath "/_astro/" || hasAssetExtension urlPath then false
  else true

/-- The guard of line 29 combined with the middleware execution: middleware
runs only when the flag is set and the path is HTML-page-like. -/
def effectiveMwPhase (opts : StaticOptions) (mw : MiddlewareSpec)
    (urlPath : String) : MwPhaseResult :=
  if opts.runMiddlewareOnRequest && isPrerenderedHTMLPage urlPath then
    middlewareStep mw
  else .fallthrough false

/-- `h.pathname.includes(pathname)` (line 75). -/
def jsIncludes (s sub : String) : Bool :=
  containsChars sub.data s.data

/-- The header-injection step (lines 72–82): when a header map is configured
and the request matches a prerendered route, the headers of the first entry
whose `pathname` *contains* the request path are set on the response. -/
def injectedHeaders (headersMap : List HeaderRoute) (matchedPrerender : Bool)
    (pathname : String) : List (String × String) :=
  if headersMap.length > 0 && matchedPrerender then
    match headersMap.find? (fun h => jsIncludes h.pathname pathname) with
    | some route => route.headers
    | none => []
  else []

/-- `(urlQuery ? '?' + urlQuery : '')` (lines 87, 108). -/
def querySuffix (urlQuery : Option String) : String :=
  match urlQuery with
  | some q => if q ≠ "" then "?" ++ q else ""
  | none => ""

/-- The action selected by the trailing-slash switch (lines 84–115). -/
inductive TsAction where
  | redirectTo (loc : String)
  | rewritten (pathname : String)
  deriving Repr, DecidableEq

/-- The trailing-slash switch (lines 84–115). -/
def trailingSlashPhase (mode : TrailingSlash) (isDirectory hasSlash : Bool)
    (urlPath : String) (urlQuery : Option String)
    (hasFileExt isInternalPath : String → Bool) : TsAction :=
  match mode with
  | .never =>
    if isDirectory && (urlPath != "/") && hasSlash then
      .redirectTo (strDropLast urlPath ++ querySuffix urlQuery)
    else if isDirectory && !hasSlash then
      .rewritten (urlPath ++ "/index.html")
    else .rewritten urlPath
  | .ignore =>
    if isDirectory && !hasSlash then .rewritten (urlPath ++ "/index.html")
    else .rewritten urlPath
  | .always =>
    if !hasSlash && !(hasFileExt urlPath) && !(isInternalPath urlPath) then
      .redirectTo (urlPath ++ "/" ++ querySuffix urlQuery)
    else .rewritten urlPath

/-- `prependForwardSlash` (lines 172–174). -/
def prependForwardSlash (pth : String) : String :=
  if strStartsWith pth "/" then pth else "/" ++ pth

/-- The client-visible outcome of one dispatch. -/
inductive Outcome where
  /-- `req.url` was falsy: the SSR fallback is invoked immediately (line 150). -/
  | ssrImmediate
  /-- the middleware's response was written (`executeMiddlewareForStatic`
      returned `true`). -/
  | mwResponse (r : ResponseModel)
  /-- a 301 redirect: `Location` value and the response headers previously
      set by the header-injection step. -/
  | redirect (location : String) (resHeaders : List (String × String))
  /-- the file at `pathname` is streamed via `send` with the previously set
      response headers; if `send` reports file-not-found the SSR fallback is
      invoked instead (lines 126–135). -/
  | sendFile (pathname : String) (resHeaders : List (String × String))
  deriving Repr, DecidableEq

/-- The full result of one dispatch: the outcome, whether the middleware
block (line 29) was entered, and whether a middleware error was logged. -/
structure DispatchResult where
  outcome : Outcome
  middlewareAttempted : Bool
  loggedError : Bool
  deriving Repr, DecidableEq

/-- The static-serving tail of the handler (lines 62–148), after the
middleware phase fell through. -/
def staticServe (opts : StaticOptions) (env : StaticEnv) (urlPath : String)
    (urlQuery : Option String) : Outcome :=
  let hasSlash := strEndsWith urlPath "/"
  let hdrs := injectedHeaders env.headersMap env.matchedPrerender urlPath
  match trailingSlashPhase opts.trailingSlash env.isDirectory hasSlash urlPath
      urlQuery env.hasFileExt env.isInternalPath with
  | .redirectTo loc => .redirect loc hdrs
  | .rewritten pathname =>
    .sendFile (prependForwardSlash (env.removeBase pathname)) hdrs

/-- The request handler returned by `createStaticHandler`
(src/unnamed/part_001 lines 23–152).  `reqUrl` is `req.url`; a missing or
empty (falsy) url goes straight to SSR. -/
def createStaticHandler (opts : StaticOptions) (env : StaticEnv)
    (mw : MiddlewareSpec) (reqUrl : Option String) : DispatchResult :=
  match reqUrl with
  | none => { outcome := .ssrImmediate, middlewareAttempted := false, loggedError := false }
  | some u =>
    if u = "" then
      { outcome := .ssrImmediate, middlewareAttempted := false, loggedError := false }
    else
      let urlPath := urlPathOf u
      let attempted := opts.runMiddlewareOnRequest && isPrerenderedHTMLPage urlPath
      match effectiveMwPhase opts mw urlPath with
      | .handled r =>
        { outcome := .mwResponse r, middlewareAttempted := attempted, loggedError := false }
      | .fallthrough logged =>
        { outcome := staticServe opts env urlPath (urlQueryOf u),
          middlewareAttempted := attempted, loggedError := logged }

/-! ## Cancellation wiring (src/unnamed/part_000 lines 285–323, 465–469)

Operational model of the abort bridge.  Each call to `createRequest` on the
same transport request creates one *adaptation instance*: an
`AbortController`, an `onSocketClose` listener and a `cleanup` closure.  The
state tracks, per instance, the closure's `cleanedUp` flag, whether the
controller's signal is aborted, whether `cleanup` is still registered as a
`{ once: true }` abort listener, and — for the exactly-once properties —
counters of effective cleanup executions (past the idempotency guard) and of
effective aborts.  Request-level state: the socket's `'close'` listener list
in registration order, the request property at
`nodeRequestAbortControllerCleanupSymbol`, and the socket's `destroyed` flag.
Node sockets are `EventEmitter`s, so `socket.off` is taken to be available
(the source's `removeListener` branch is the same operation). -/

/-- Per-adaptation state (one `createRequest` call). -/
structure AdaptInstance where
  id : Nat
  /-- the closure-captured `cleanedUp` flag (line 291). -/
  cleanedUp : Bool
  /-- `controller.signal.aborted`. -/
  aborted : Bool
  /-- `cleanup` is registered as an abort listener (`{ once: true }`,
      line 317) and not yet removed. -/
  abortListener : Bool
  /-- number of times the cleanup body past the guard ran. -/
  cleanupRuns : Nat
  /-- number of times `controller.abort()` actually aborted the signal. -/
  abortFires : Nat
  deriving Repr, DecidableEq

/-- The abort-bridge state attached to one transport request. -/
structure AbortBridgeState where
  instances : List AdaptInstance
  /-- socket `'close'` listeners (`onSocketClose` of each instance), in
      registration order. -/
  closeListeners : List Nat
  /-- `req[nodeRequestAbortControllerCleanupSymbol]`. -/
  cleanupSlot : Option Nat
  /-- `socket.destroyed` at adaptation time. -/
  socketDestroyed : Bool
  nextId : Nat
  deriving Repr, DecidableEq

/-- Lookup of instance `i`. -/
def findInst (st : AbortBridgeState) (i : Nat) : Option AdaptInstance :=
  st.instances.find? fun a => a.id == i

/-- Point update of instance `i`. -/
def updInst (st : AbortBridgeState) (i : Nat) (f : AdaptInstance → AdaptInstance) :
    AbortBridgeState :=
  { st with instances := st.instances.map fun a => if a.id == i then f a else a }

/-- The `cleanup` closure of instance `i` (lines 301–307): guarded by
`cleanedUp`; removes the socket listener, removes itself as abort listener,
and deletes the request property. -/
def runCleanup (st : AbortBridgeState) (i : Nat) : AbortBridgeState :=
  match findInst st i with
  | none => st
  | some inst =>
    if inst.cleanedUp then st
    else
      let st1 := updInst st i fun a =>
        { a with cleanedUp := true, cleanupRuns := a.cleanupRuns + 1 }
      let st2 := { st1 with closeListeners := st1.closeListeners.filter (· ≠ i) }
      let st3 := updInst st2 i fun a => { a with abortListener := false }
      { st3 with cleanupSlot := none }

/-- `controller.abort()` of instance `i`: a no-op when the signal is already
aborted; otherwise the signal transitions to aborted and its abort listeners
fire — `cleanup` was registered `{ once: true }`, so it is removed before
being invoked. -/
def abortSignal (st : AbortBridgeState) (i : Nat) : AbortBridgeState :=
  match findInst st i with
  | none => st
  | some inst =>
    if inst.aborted then st
    else
      let st1 := updInst st i fun a =>
        { a with aborted := true, abortFires := a.abortFires + 1 }
      if inst.abortListener then
        runCleanup (updInst st1 i fun a => { a with abortListener := false }) i
      else st1

/-- The `onSocketClose` listener of instance `i` (lines 309–314): run the
cleanup, then abort the controller if not yet aborted. -/
def onSocketClose (st : AbortBridgeState) (i : Nat) : AbortBridgeState :=
  let st1 := runCleanup st i
  match findInst st1 i with
  | none => st1
  | some inst => if inst.aborted then st1 else abortSignal st1 i

/-- The socket emitting a `'close'` event: Node's emit iterates over a
snapshot of the listener list taken at emit time. -/
def emitSocketClose (st : AbortBridgeState) : AbortBridgeState :=
  st.closeListeners.foldl (fun s i => onSocketClose s i) st

/-- One execution of the socket-wiring section of `createRequest`
(lines 285–323): invoke a pre-existing cleanup (re-adaptation,
lines 287–290), create the new instance, register its close listener and
abort listener, store its cleanup on the request, and fire immediately when
the socket is already destroyed (lines 320–322). -/
def adaptCancellation (st : AbortBridgeState) : AbortBridgeState :=
  let st1 :=
    match st.cleanupSlot with
    | some j => runCleanup st j
    | none => st
  let i := st1.nextId
  let st2 := { st1 with
    instances := st1.instances ++
      [({ id := i, cleanedUp := false, aborted := false, abortListener := false,
          cleanupRuns := 0, abortFires := 0 } : AdaptInstance)],
    nextId := i + 1 }
  let st3 := { st2 with closeListeners := st2.closeListeners ++ [i] }
  let st4 := updInst st3 i fun a => { a with abortListener := true }
  let st5 := { st4 with cleanupSlot := some i }
  if st5.socketDestroyed then onSocketClose st5 i else st5

/-- The pristine abort-bridge state of a fresh transport request whose
connection is still open. -/
def freshAbortState : AbortBridgeState :=
  { instances := [], closeListeners := [], cleanupSlot := none,
    socketDestroyed := false, nextId := 0 }

/-! ## Concrete sample inputs used in counterexamples and witnesses -/

/-- A trust policy accepting every forwarded host. -/
def allowAllPolicy : String → Bool := fun _ => true

/-- A trust policy rejecting every forwarded host (e.g. a configured
allow-list that the value does not match). -/
def denyAllPolicy : String → Bool := fun _ => false

/-- A plain transport request: `GET /x` with `Host: example.com`, no
forwarded headers, cleartext socket, no body override. -/
def baseReq : NodeRequestModel :=
  { method := some "GET", url := "/x", host := some "example.com",
    authority := none, xForwardedProto := none, xForwardedHost := none,
    xForwardedPort := none, socketEncrypted := false, body := .jsUndefined }

/-- `baseReq` with an unparsable forwarded protocol and a forwarded port. -/
def reqBadProtoFwdPort : NodeRequestModel :=
  { baseReq with xForwardedProto := some "ht tp", xForwardedPort := some "8080" }

/-- `baseReq` with a malformed connection `Host` header (contains a space,
a forbidden host code point). -/
def reqMalformedHost : NodeRequestModel :=
  { baseReq with host := some "exa mple" }

/-- `baseReq` with an empty `x-forwarded-host` header. -/
def reqEmptyForwardedHost : NodeRequestModel :=
  { baseReq with xForwardedHost := some "" }

/-- `baseReq` with a forwarded host that a configured allow-list rejects. -/
def reqUntrustedForwardedHost : NodeRequestModel :=
  { baseReq with xForwardedHost := some "evil.example" }

/-- A `POST` request with an empty-string body override. -/
def postEmptyStringReq : NodeRequestModel :=
  { baseReq with method := some "POST", body := .jsString "" }

/-- A request whose transport method field is absent. -/
def noMethodReq : NodeRequestModel :=
  { baseReq with method := none }

/-- A simple dispatcher environment: the resolved path is not a directory, no
header map, no prerendered route match, no base path, no file-extension or
internal-path classification. -/
def sampleEnv : StaticEnv :=
  { isDirectory := false, headersMap := [], matchedPrerender := false,
    removeBase := id, hasFileExt := fun _ => false,
    isInternalPath := fun _ => false }

/-- `sampleEnv` with the resolved path a directory. -/
def sampleDirEnv : StaticEnv :=
  { sampleEnv with isDirectory := true }

/-- Dispatcher options with middleware pre-execution enabled. -/
def sampleOpts : StaticOptions :=
  { runMiddlewareOnRequest := true, trailingSlash := .ignore, assets := "_astro" }

/-- Dispatcher options with trailing-slash mode `never` and middleware
pre-execution off. -/
def neverOpts : StaticOptions :=
  { runMiddlewareOnRequest := false, trailingSlash := .never, assets := "_astro" }

/-- The observable behaviour of the cookie-setting fixture middleware of
`middleware-static-pages.test.js`: it records a cookie on the context's
cookie jar, calls `next()`, and returns the continuation response carrying an
`x-middleware-ran` header. -/
def cookieMwSpec : MiddlewareSpec :=
  .runs (some { status := 200, headers := [("x-middleware-ran", "true")] }) true
    ["middleware-cookie=value; Path=/; HttpOnly"]

/-- A middleware that short-circuits with its own response without invoking
the continuation. -/
def shortCircuitMw : MiddlewareSpec :=
  .runs (some { status := 302, headers := [("Location", "/login")] }) false []

/-! ## Claims C8, C9, C10: method and body of the normalized request -/

/-- **C8**: for a transport request whose method is GET or HEAD, or whenever
the `skipBody` flag is true, the normalized request has no body, whatever the
transport body or override contained. -/
theorem createRequest_no_body_for_get_head_skip (req : NodeRequestModel)
    (skipBody : Bool)
    (h : req.method = some "GET" ∨ req.method = some "HEAD" ∨ skipBody = true) :
    (createRequestInit req skipBody).body = none := by
  have hba : bodyAllowed req skipBody = false := by
    rcases h with h | h | h
    · have hm : resolvedMethod req = "GET" := by unfold resolvedMethod; rw [h]; rfl
      unfold bodyAllowed; rw [hm]; simp
    · have hm : resolvedMethod req = "HEAD" := by unfold resolvedMethod; rw [h]; rfl
      unfold bodyAllowed; rw [hm]; simp
    · unfold bodyAllowed; rw [h]; simp
  unfold createRequestInit
  rw [hba]
  simp

/-- Witness for **C8** at `baseReq` (a GET request). -/
theorem createRequest_no_body_for_get_head_skip_witness :
    baseReq.method = some "GET" ∧ (createRequestInit baseReq false).body = none :=
  ⟨by decide,
    createRequest_no_body_for_get_head_skip baseReq false (Or.inl (by decide))⟩

/-- **C9**: an explicit body override that is the empty string, or an object
with no own keys and no async iterator, is ignored: the transport request's
own byte stream is attached as a streaming body with the half-duplex marker
(shown for a body-carrying method with `skipBody` off, so that the body is
attached at all). -/
theorem createRequest_empty_override_uses_request_stream (req : NodeRequestModel)
    (skipBody : Bool)
    (hbody : req.body = .jsString "" ∨ req.body = .jsObject [] false)
    (hm1 : resolvedMethod req ≠ "GET") (hm2 : resolvedMethod req ≠ "HEAD")
    (hskip : skipBody = false) :
    (createRequestInit req skipBody).body =
      some { body := .requestStream, duplex := some "half" } := by
  have hmk : makeRequestBody req = { body := .requestStream, duplex := some "half" } := by
    rcases hbody with h | h
    · unfold makeRequestBody; rw [h]; rfl
    · unfold makeRequestBody; rw [h]; rfl
  have hba : bodyAllowed req skipBody = true := by
    unfold bodyAllowed
    rw [hskip]
    simp [bne_iff_ne, hm1, hm2]
  unfold createRequestInit
  rw [hba, hmk]
  simp

/-- Witness for **C9** at a POST request with an empty-string override. -/
theorem createRequest_empty_override_uses_request_stream_witness :
    postEmptyStringReq.body = .jsString "" ∧
    resolvedMethod postEmptyStringReq ≠ "GET" ∧
    resolvedMethod postEmptyStringReq ≠ "HEAD" ∧
    (createRequestInit postEmptyStringReq false).body =
      some { body := .requestStream, duplex := some "half" } :=
  ⟨by decide, by decide, by decide,
    createRequest_empty_override_uses_request_stream postEmptyStringReq false
      (Or.inl (by decide)) (by decide) (by decide) rfl⟩

/-- **C10**: a transport request with an absent or empty method field is
normalized to method GET. -/
theorem createRequest_default_method_get (req : NodeRequestModel) (skipBody : Bool)
    (h : req.method = none ∨ req.method = some "") :
    (createRequestInit req skipBody).method = "GET" := by
  have hm : resolvedMethod req = "GET" := by
    rcases h with h | h
    · unfold resolvedMethod; rw [h]
    · unfold resolvedMethod; rw [h]; rfl
  unfold createRequestInit
  rw [hm]

/-- Witness for **C10** at a request with no method field. -/
theorem createRequest_default_method_get_witness :
    noMethodReq.method = none ∧ (createRequestInit noMethodReq true).method = "GET" :=
  ⟨by decide, createRequest_default_method_get noMethodReq true (Or.inl (by decide))⟩

/-! ## Claim C1: URL assembly and its fallback -/

/-- Every successful `parseHostPort` carries the scheme it was given. -/
theorem parseHostPort_scheme {scheme : String} {hostChars : List Char}
    {portPart : Option (List Char)} {u : UrlModel}
    (h : parseHostPort scheme hostChars portPart = some u) : u.scheme = scheme := by
  unfold parseHostPort at h
  split at h
  · split at h
    · injection h with h1
      exact h1 ▸ rfl
    · split at h
      · exact Option.noConfusion h
      · injection h with h1
        exact h1 ▸ rfl
  · exact Option.noConfusion h

/-- Every successful `parseAfterScheme` carries the scheme it was given. -/
theorem parseAfterScheme_scheme {scheme : String} {rest2 : List Char} {u : UrlModel}
    (h : parseAfterScheme scheme rest2 = some u) : u.scheme = scheme := by
  unfold parseAfterScheme at h
  split at h
  · exact parseHostPort_scheme h
  · exact parseHostPort_scheme h

/-- Parsing an `http://`-prefixed string reduces to `parseAfterScheme`. -/
theorem urlParse_append_http (x : String) :
    urlParse ("http://" ++ x) = parseAfterScheme "http" x.data := rfl

/-- Parsing an `https://`-prefixed string reduces to `parseAfterScheme`. -/
theorem urlParse_append_https (x : String) :
    urlParse ("https://" ++ x) = parseAfterScheme "https" x.data := rfl

/-- A successful parse of the fallback URL string yields the
connection-derived protocol as its scheme. -/
theorem fallback_scheme_connection (req : NodeRequestModel) (u : UrlModel)
    (h : urlParse (fallbackUrlString req) = some u) :
    u.scheme = providedProtocol req := by
  unfold fallbackUrlString providedProtocol at *
  by_cases he : req.socketEncrypted
  · rw [if_pos he] at h ⊢
    have h2 : urlParse ("https://" ++
        getHostnamePort (providedHostname req) (forwardedPort req)) = some u := h
    rw [urlParse_append_https] at h2
    exact parseAfterScheme_scheme h2
  · rw [if_neg he] at h ⊢
    have h2 : urlParse ("http://" ++
        getHostnamePort (providedHostname req) (forwardedPort req)) = some u := h
    rw [urlParse_append_http] at h2
    exact parseAfterScheme_scheme h2

/-- **C1** counterexample.  The claim states that on primary parse failure the
retry ignores forwarded values entirely and always succeeds, so that
`createRequest` never throws.  Both parts fail on the code:
(1) for `reqBadProtoFwdPort` (unparsable forwarded protocol `"ht tp"`,
forwarded port `8080`, connection host `example.com` without port) the
primary parse fails and the fallback URL carries port `8080` — the forwarded
port, which the connection did not provide; (2) for `reqMalformedHost`
(connection `Host: exa mple`) the primary *and* the fallback parse fail, so
`createRequest` throws. -/
theorem createRequestUrl_fallback_counterexample :
    urlParse (primaryUrlString reqBadProtoFwdPort allowAllPolicy) = none ∧
    createRequestUrl reqBadProtoFwdPort allowAllPolicy =
      some { scheme := "http", host := "example.com", port := some 8080 } ∧
    forwardedPort reqBadProtoFwdPort = some "8080" ∧
    providedHostname reqBadProtoFwdPort = some "example.com" ∧
    createRequestUrl reqMalformedHost allowAllPolicy = none := by
  refine ⟨by decide, by decide, by decide, by decide, by decide⟩

/-- **C1** (amended): if the primary URL assembly fails to parse,
`createRequest` retries with the connection-provided host and the
connection-derived protocol but *retains the forwarded port* (and drops the
request path); the fallback is not guaranteed to succeed — when it also fails
to parse, `createRequest` throws (modelled as `none`) — and whenever it does
succeed, the resulting URL's protocol is the connection-derived one. -/
theorem createRequestUrl_fallback (req : NodeRequestModel)
    (validate : String → Bool)
    (h : urlParse (primaryUrlString req validate) = none) :
    createRequestUrl req validate = urlParse (fallbackUrlString req) ∧
    (createRequestUrl req validate = none ∨
      Option.map UrlModel.scheme (createRequestUrl req validate) =
        some (providedProtocol req)) := by
  have h1 : createRequestUrl req validate = urlParse (fallbackUrlString req) := by
    unfold createRequestUrl
    rw [h]
  refine ⟨h1, ?_⟩
  cases hf : urlParse (fallbackUrlString req) with
  | none => exact Or.inl (h1.trans hf)
  | some u =>
    refine Or.inr ?_
    rw [h1, hf]
    exact congrArg some (fallback_scheme_connection req u hf)

/-- Witness for the amended **C1** at `reqBadProtoFwdPort`, whose primary URL
string fails to parse. -/
theorem createRequestUrl_fallback_witness :
    urlParse (primaryUrlString reqBadProtoFwdPort allowAllPolicy) = none ∧
    (createRequestUrl reqBadProtoFwdPort allowAllPolicy =
        urlParse (fallbackUrlString reqBadProtoFwdPort) ∧
      (createRequestUrl reqBadProtoFwdPort allowAllPolicy = none ∨
        Option.map UrlModel.scheme (createRequestUrl reqBadProtoFwdPort allowAllPolicy) =
          some (providedProtocol reqBadProtoFwdPort))) :=
  ⟨by decide, createRequestUrl_fallback reqBadProtoFwdPort allowAllPolicy (by decide)⟩

/-! ## Claim C3: untrusted forwarded host -/

/-- **C3** counterexample: for an *empty* forwarded-host value — which no
allow-list accepts — the JS truthiness guard skips validation entirely, and
the empty forwarded value (not the connection-provided host) becomes the
hostname used for URL assembly. -/
theorem resolvedHostname_empty_forwarded_counterexample :
    forwardedHostnameRaw reqEmptyForwardedHost = some "" ∧
    denyAllPolicy "" = false ∧
    resolvedHostname reqEmptyForwardedHost denyAllPolicy = some "" ∧
    resolvedHostname reqEmptyForwardedHost denyAllPolicy ≠
      providedHostname reqEmptyForwardedHost := by
  refine ⟨by decide, by decide, by decide, by decide⟩

/-- **C3** (amended): for every transport request whose forwarded-host
header's first comma-separated value is *non-empty* and fails the trust
policy, the hostname used to build the URL is the connection-provided host
(host header or `:authority`), never the forwarded value; the forwarded value
is discarded silently. -/
theorem resolvedHostname_untrusted_discarded (req : NodeRequestModel)
    (validate : String → Bool) (h : String)
    (hfwd : forwardedHostnameRaw req = some h) (hne : h ≠ "")
    (hval : validate h = false) :
    resolvedHostname req validate = providedHostname req := by
  unfold resolvedHostname checkedForwardedHostname
  rw [hfwd]
  dsimp only
  rw [if_pos (show h ≠ "" ∧ ¬ validate h = true from ⟨hne, by simp [hval]⟩)]
  rfl

/-- Witness for the amended **C3**: a non-empty forwarded host rejected by
the policy is replaced by the connection host. -/
theorem resolvedHostname_untrusted_discarded_witness :
    forwardedHostnameRaw reqUntrustedForwardedHost = some "evil.example" ∧
    "evil.example" ≠ "" ∧
    denyAllPolicy "evil.example" = false ∧
    resolvedHostname reqUntrustedForwardedHost denyAllPolicy =
      providedHostname reqUntrustedForwardedHost :=
  ⟨by decide, by decide, by decide,
    resolvedHostname_untrusted_discarded reqUntrustedForwardedHost denyAllPolicy
      "evil.example" (by decide) (by decide) (by decide)⟩

/-! ## Claim C4: cancellation wiring fires exactly once -/

/-- `find?` after a point update at `i` is the mapped find, provided the
update preserves ids. -/
theorem find?_map_point_upd (l : List AdaptInstance) (i : Nat)
    (f : AdaptInstance → AdaptInstance) (hf : ∀ a, (f a).id = a.id) :
    (l.map fun a => if a.id == i then f a else a).find? (fun a => a.id == i) =
      (l.find? fun a => a.id == i).map f := by
  induction l with
  | nil => simp
  | cons a as ih =>
    simp only [List.map_cons]
    by_cases hai : a.id = i
    · rw [if_pos (by simpa using hai)]
      rw [List.find?_cons_of_pos _ (by simp [hf, hai]),
        List.find?_cons_of_pos _ (by simp [hai])]
      simp
    · rw [if_neg (by simpa using hai)]
      rw [List.find?_cons_of_neg _ (by simp [hai]),
        List.find?_cons_of_neg _ (by simp [hai])]
      exact ih

/-- `findInst` after `updInst` at the same id. -/
theorem findInst_updInst (st : AbortBridgeState) (i : Nat)
    (f : AdaptInstance → AdaptInstance) (hf : ∀ a, (f a).id = a.id) :
    findInst (updInst st i f) i = (findInst st i).map f :=
  find?_map_point_upd st.instances i f hf

/-- `find?` after two successive point updates at the same id. -/
theorem find?_after_two_upds (l : List AdaptInstance) (i : Nat)
    (f g : AdaptInstance → AdaptInstance)
    (hf : ∀ a, (f a).id = a.id) (hg : ∀ a, (g a).id = a.id) (a : AdaptInstance)
    (h : l.find? (fun a => a.id == i) = some a) :
    ((l.map fun x => if x.id == i then f x else x).map fun x =>
        if x.id == i then g x else x).find? (fun a => a.id == i) =
      some (g (f a)) := by
  rw [find?_map_point_upd _ i g hg, find?_map_point_upd _ i f hf, h]
  rfl

/-- `runCleanup` never changes an instance's `aborted` flag. -/
theorem findInst_runCleanup_aborted (st : AbortBridgeState) (i : Nat)
    (a : AdaptInstance) (h : findInst st i = some a) :
    ∃ b, findInst (runCleanup st i) i = some b ∧ b.aborted = a.aborted := by
  unfold runCleanup
  rw [h]
  dsimp only
  by_cases hc : a.cleanedUp
  · rw [if_pos hc]
    exact ⟨a, h, rfl⟩
  · rw [if_neg hc]
    refine ⟨{ a with cleanedUp := true, cleanupRuns := a.cleanupRuns + 1, abortListener := false }, ?_, rfl⟩
    exact find?_after_two_upds st.instances i
      (fun x => { x with cleanedUp := true, cleanupRuns := x.cleanupRuns + 1 })
      (fun x => { x with abortListener := false })
      (fun _ => rfl) (fun _ => rfl) a h

/-- `abortSignal` leaves the instance present with `aborted = true`. -/
theorem findInst_abortSignal (st : AbortBridgeState) (i : Nat)
    (a : AdaptInstance) (h : findInst st i = some a) :
    ∃ b, findInst (abortSignal st i) i = some b ∧ b.aborted = true := by
  unfold abortSignal
  rw [h]
  dsimp only
  by_cases hab : a.aborted
  · rw [if_pos hab]
    exact ⟨a, h, hab⟩
  · rw [if_neg hab]
    have h1 : findInst (updInst st i fun x =>
        { x with aborted := true, abortFires := x.abortFires + 1 }) i =
        some { a with aborted := true, abortFires := a.abortFires + 1 } := by
      rw [findInst_updInst st i
        (fun x => { x with aborted := true, abortFires := x.abortFires + 1 })
        (fun _ => rfl), h]
      rfl
    by_cases hal : a.abortListener
    · rw [if_pos hal]
      have h2 : findInst (updInst (updInst st i fun x =>
          { x with aborted := true, abortFires := x.abortFires + 1 }) i fun x =>
          { x with abortListener := false }) i =
          some { a with aborted := true, abortFires := a.abortFires + 1, abortListener := false } := by
        rw [findInst_updInst _ i
          (fun x => { x with abortListener := false }) (fun _ => rfl), h1]
        rfl
      obtain ⟨b, hb, hba⟩ := findInst_runCleanup_aborted _ i _ h2
      exact ⟨b, hb, hba⟩
    · rw [if_neg hal]
      exact ⟨_, h1, rfl⟩

/-- A signal that is already aborted ignores further abort requests. -/
theorem abortSignal_of_aborted (st : AbortBridgeState) (i : Nat)
    (b : AdaptInstance) (hb : findInst st i = some b) (hba : b.aborted = true) :
    abortSignal st i = st := by
  unfold abortSignal
  rw [hb]
  dsimp only
  rw [if_pos hba]

/-- Repeated abort requests are no-ops: firing the cancellation signal twice
is the same as firing it once. -/
theorem abortSignal_idem (st : AbortBridgeState) (i : Nat) :
    abortSignal (abortSignal st i) i = abortSignal st i := by
  cases h : findInst st i with
  | none =>
    have h0 : abortSignal st i = st := by unfold abortSignal; rw [h]
    rw [h0]
    exact h0
  | some a =>
    obtain ⟨b, hb, hba⟩ := findInst_abortSignal st i a h
    exact abortSignal_of_aborted _ i b hb hba

/-- **C4**: (i) re-adapting the same transport request invokes the previous
cleanup and replaces it — after two adaptations the socket holds exactly one
close listener (the second instance's), the first instance's cleanup has run
exactly once, and the request property points at the second cleanup; (ii)
after a close event the surviving instance's cleanup and abort have each
fired exactly once, and a second close event changes nothing; (iii) repeated
fire requests on a cancellation signal are no-ops. -/
theorem abortBridge_cleanup_exactly_once :
    (adaptCancellation (adaptCancellation freshAbortState)).closeListeners = [1] ∧
    findInst (adaptCancellation (adaptCancellation freshAbortState)) 0 =
      some { id := 0, cleanedUp := true, aborted := false, abortListener := false,
             cleanupRuns := 1, abortFires := 0 } ∧
    (adaptCancellation (adaptCancellation freshAbortState)).cleanupSlot = some 1 ∧
    findInst (emitSocketClose
        (adaptCancellation (adaptCancellation freshAbortState))) 1 =
      some { id := 1, cleanedUp := true, aborted := true, abortListener := false,
             cleanupRuns := 1, abortFires := 1 } ∧
    emitSocketClose (emitSocketClose
        (adaptCancellation (adaptCancellation freshAbortState))) =
      emitSocketClose (adaptCancellation (adaptCancellation freshAbortState)) ∧
    ∀ st i, abortSignal (abortSignal st i) i = abortSignal st i :=
  ⟨by decide, by decide, by decide, by decide, by decide, abortSignal_idem⟩

/-! ## Claim C2: context cookies on the final response -/

/-- **C2** (evaluation at the failing input).  With middleware pre-execution
enabled and the cookie-setting middleware of the repository's own test
fixture (`middleware-static-pages.test.js`, `/set-cookie-page`: the
middleware records a cookie on the context's cookie jar, calls `next()` and
returns the continuation response), the dispatcher of src/unnamed/part_001
serves the static file with *no* response headers set by the dispatch — the
recorded cookie is never merged.  The same dispatcher also writes a
short-circuit response verbatim, again without the context cookies.  By
contrast, `NodeApp.executeMiddlewareOnly` (src/unnamed/part_000) does append
the context cookies as `set-cookie` headers, which is the behaviour the
claim (and the test) describe. -/
theorem staticHandler_drops_context_cookies :
    createStaticHandler sampleOpts sampleEnv cookieMwSpec (some "/set-cookie-page") =
      { outcome := .sendFile "/set-cookie-page" [], middlewareAttempted := true,
        loggedError := false } ∧
    createStaticHandler sampleOpts sampleEnv
        (.runs (some { status := 302, headers := [] }) false
          ["middleware-cookie=value; Path=/; HttpOnly"]) (some "/short-circuit") =
      { outcome := .mwResponse { status := 302, headers := [] },
        middlewareAttempted := true, loggedError := false } ∧
    (executeMiddlewareOnly (some { status := 200, headers := [] }) false
        ["middleware-cookie=value; Path=/; HttpOnly"]).response =
      some { status := 200,
             headers := [("set-cookie", "middleware-cookie=value; Path=/; HttpOnly")] } :=
  ⟨by decide, by decide, by decide⟩

/-! ## Claim C5: trailing-slash mode `never` -/

/-- **C5** counterexample.  (1) For request url `/blog/?a?b` (query string
`a?b`) the redirect `Location` is `/blog?a`: the destructuring
`const [urlPath, urlQuery] = req.url.split('?')` drops everything after a
second `?`, so the query string is *not* preserved.  (2) With middleware
pre-execution enabled, a middleware that short-circuits preempts the
redirect entirely, so the dispatcher does not respond 301. -/
theorem staticHandler_never_redirect_counterexample :
    (createStaticHandler neverOpts sampleDirEnv .absent (some "/blog/?a?b")).outcome =
      .redirect "/blog?a" [] ∧
    "/blog?a" ≠ "/blog" ++ "?" ++ "a?b" ∧
    (createStaticHandler { neverOpts with runMiddlewareOnRequest := true }
        sampleDirEnv shortCircuitMw (some "/blog/")).outcome =
      .mwResponse { status := 302, headers := [("Location", "/login")] } :=
  ⟨by decide, by decide, by decide⟩

/-- The `never` branch of the trailing-slash switch redirects for a
directory path with a trailing slash that is not the root. -/
theorem trailingSlashPhase_never_redirect (isDir hasSlash : Bool)
    (urlPath : String) (urlQuery : Option String) (hfe hip : String → Bool)
    (hdir : isDir = true) (hslash : hasSlash = true) (hroot : urlPath ≠ "/") :
    trailingSlashPhase .never isDir hasSlash urlPath urlQuery hfe hip =
      .redirectTo (strDropLast urlPath ++ querySuffix urlQuery) := by
  simp only [trailingSlashPhase]
  rw [hdir, hslash]
  rw [if_pos (by simp [bne_iff_ne, hroot])]

/-- **C5** (amended): under trailing-slash mode `never`, when the middleware
phase does not short-circuit, for every request whose parsed path (the part
of the url before the first `?`) ends with a slash, is not `/`, and resolves
to a directory, the dispatcher responds with a 301 redirect to the
slash-stripped path followed by the first `?`-delimited query segment when
non-empty (content after a second `?` is dropped), with only the injected
header-map headers on the response — no file is streamed and SSR is not
invoked. -/
theorem staticHandler_never_redirect (opts : StaticOptions) (env : StaticEnv)
    (mw : MiddlewareSpec) (u : String)
    (hmode : opts.trailingSlash = .never)
    (hdir : env.isDirectory = true)
    (hslash : strEndsWith (urlPathOf u) "/" = true)
    (hroot : urlPathOf u ≠ "/")
    (hnh : ∀ r, effectiveMwPhase opts mw (urlPathOf u) ≠ .handled r) :
    (createStaticHandler opts env mw (some u)).outcome =
      .redirect (strDropLast (urlPathOf u) ++ querySuffix (urlQueryOf u))
        (injectedHeaders env.headersMap env.matchedPrerender (urlPathOf u)) := by
  have hu : u ≠ "" := by
    intro he
    rw [he] at hslash
    exact absurd hslash (by decide)
  cases hmw : effectiveMwPhase opts mw (urlPathOf u) with
  | handled r => exact absurd hmw (hnh r)
  | fallthrough logged =>
    simp only [createStaticHandler]
    rw [if_neg hu, hmw]
    show staticServe opts env (urlPathOf u) (urlQueryOf u) = _
    simp only [staticServe]
    rw [hmode, trailingSlashPhase_never_redirect _ _ _ _ _ _ hdir hslash hroot]

/-- Witness for the amended **C5** at `/docs/?page=2`. -/
theorem staticHandler_never_redirect_witness :
    neverOpts.trailingSlash = .never ∧
    sampleDirEnv.isDirectory = true ∧
    strEndsWith (urlPathOf "/docs/?page=2") "/" = true ∧
    urlPathOf "/docs/?page=2" ≠ "/" ∧
    (createStaticHandler neverOpts sampleDirEnv .absent (some "/docs/?page=2")).outcome =
      .redirect (strDropLast (urlPathOf "/docs/?page=2") ++
          querySuffix (urlQueryOf "/docs/?page=2"))
        (injectedHeaders sampleDirEnv.headersMap sampleDirEnv.matchedPrerender
          (urlPathOf "/docs/?page=2")) :=
  ⟨rfl, rfl, by decide, by decide,
    staticHandler_never_redirect neverOpts sampleDirEnv .absent "/docs/?page=2"
      rfl rfl (by decide) (by decide)
      (fun r h => by rw [show effectiveMwPhase neverOpts .absent
        (urlPathOf "/docs/?page=2") = .fallthrough false from by decide] at h; exact
        MwPhaseResult.noConfusion h)⟩

/-! ## Claim C6: asset paths never trigger middleware -/

/-- **C6**: for every request whose parsed path begins with `/_astro/` or
carries one of the known static-asset extensions (case-insensitively),
middleware pre-execution is never triggered, whatever the options (including
the run-middleware flag), environment, or middleware. -/
theorem staticHandler_assets_skip_middleware (opts : StaticOptions)
    (env : StaticEnv) (mw : MiddlewareSpec) (u : String)
    (h : strStartsWith (urlPathOf u) "/_astro/" = true ∨
      hasAssetExtension (urlPathOf u) = true) :
    (createStaticHandler opts env mw (some u)).middlewareAttempted = false := by
  have hp : isPrerenderedHTMLPage (urlPathOf u) = false := by
    unfold isPrerenderedHTMLPage
    rcases h with h | h
    · rw [if_pos (by rw [h]; rfl)]
    · rw [if_pos (by rw [h, Bool.or_true])]
  by_cases hu : u = ""
  · rw [hu]
    rfl
  · simp only [createStaticHandler]
    rw [if_neg hu]
    cases effectiveMwPhase opts mw (urlPathOf u) with
    | handled r =>
      dsimp only
      rw [hp, Bool.and_false]
    | fallthrough logged =>
      dsimp only
      rw [hp, Bool.and_false]

/-- Witness for **C6** at the two paths named by the claim, with the
run-middleware flag enabled and a short-circuiting middleware configured. -/
theorem staticHandler_assets_skip_middleware_witness :
    (createStaticHandler sampleOpts sampleEnv shortCircuitMw
      (some "/_astro/app.js")).middlewareAttempted = false ∧
    (createStaticHandler sampleOpts sampleEnv shortCircuitMw
      (some "/favicon.png")).middlewareAttempted = false :=
  ⟨staticHandler_assets_skip_middleware sampleOpts sampleEnv shortCircuitMw
      "/_astro/app.js" (Or.inl (by decide)),
    staticHandler_assets_skip_middleware sampleOpts sampleEnv shortCircuitMw
      "/favicon.png" (Or.inr (by decide))⟩

/-! ## Claim C7: middleware errors are fail-open -/

/-- **C7**: when middleware pre-execution is attempted (url present,
flag on, HTML-page-like path) and the middleware errors while loading or
while being invoked, the error is caught and logged at the dispatch
boundary, and the dispatch outcome is exactly the outcome of the same
dispatch with no middleware configured — static serving (or, inside the
`send` stream, the SSR fallback) proceeds; the middleware block was entered
and no error escapes the dispatch entrypoint. -/
theorem staticHandler_middleware_error_fail_open (opts : StaticOptions)
    (env : StaticEnv) (mw : MiddlewareSpec) (u : String)
    (hu : u ≠ "")
    (hflag : opts.runMiddlewareOnRequest = true)
    (hpage : isPrerenderedHTMLPage (urlPathOf u) = true)
    (hmw : mw = .loadError ∨ mw = .invokeError) :
    (createStaticHandler opts env mw (some u)).loggedError = true ∧
    (createStaticHandler opts env mw (some u)).outcome =
      (createStaticHandler opts env .absent (some u)).outcome ∧
    (createStaticHandler opts env mw (some u)).middlewareAttempted = true := by
  have hstep : middlewareStep mw = .fallthrough true := by
    rcases hmw with h | h
    · rw [h]; rfl
    · rw [h]; rfl
  have hgate : (opts.runMiddlewareOnRequest && isPrerenderedHTMLPage (urlPathOf u))
      = true := by rw [hflag, hpage]; rfl
  have heff : effectiveMwPhase opts mw (urlPathOf u) = .fallthrough true := by
    unfold effectiveMwPhase
    rw [hgate, if_pos rfl, hstep]
  have heffabs : effectiveMwPhase opts .absent (urlPathOf u) = .fallthrough false := by
    unfold effectiveMwPhase
    rw [hgate, if_pos rfl]
    rfl
  refine ⟨?_, ?_, ?_⟩
  · simp only [createStaticHandler]
    rw [if_neg hu, heff]
  · simp only [createStaticHandler, if_neg hu]
    rw [heff, heffabs]
  · simp only [createStaticHandler]
    rw [if_neg hu, heff]
    exact hgate

/-- Witness for **C7**: a loading error on an HTML page path. -/
theorem staticHandler_middleware_error_fail_open_witness :
    ("/page" : String) ≠ "" ∧
    sampleOpts.runMiddlewareOnRequest = true ∧
    isPrerenderedHTMLPage (urlPathOf "/page") = true ∧
    ((createStaticHandler sampleOpts sampleEnv .loadError (some "/page")).loggedError = true ∧
      (createStaticHandler sampleOpts sampleEnv .loadError (some "/page")).outcome =
        (createStaticHandler sampleOpts sampleEnv .absent (some "/page")).outcome ∧
      (createStaticHandler sampleOpts sampleEnv .loadError (some "/page")).middlewareAttempted = true) :=
  ⟨by decide, rfl, by decide,
    staticHandler_middleware_error_fail_open sampleOpts sampleEnv .loadError "/page"
      (by decide) rfl (by decide) (Or.inl rfl)⟩

end Spec2Proof
